import Mathlib

/-!
Verification of the English-Level-Quiz assessment engine.

The repository implements a multiple-choice quiz twice: a web front-end
(`app.py`, Flask, per-user session dict) and a chat front-end (`bot.py`,
per-user FSM state).  This file gives a shallow embedding of the parts
with real state and invariants:

* the level-determination rule (`app.py` lines 280-292, `bot.py` lines
  673-683 — the two copies are textually identical);
* the per-session answer state machine of both front-ends
  (`app.py submit_answer`, `bot.py handle_answer` / `finish_quiz`);
* question fetching (`app.py start_quiz`, `bot.py get_questions`);
* the hint economy (`bot.py use_hint`, `get_user_hints`,
  `use_hint_callback`, `get_daily_bonus`, `claim_daily_bonus`).

Machine integers are modelled as `Nat`/`Int`; the float expression
`(score / total) * 100` is modelled over `ℚ` (at every threshold
comparison proved concretely below the IEEE-double value rounds to the
same side as the rational value).  SQL `ORDER BY RANDOM()` is modelled
by an explicit permutation parameter; `ORDER BY q.id` by a sort.
-/

/-- A row of the `questions` table joined with `english_levels`:
`(q.id, q.question_text, q.options, q.correct_answer, l.level)`, with
`levelId` the `l.id` key used by the bot's full-pool `ORDER BY l.id, q.id`. -/
structure Question where
  id : Nat
  levelId : Nat
  text : String
  options : List String
  correct : Nat
  level : String
deriving DecidableEq, Repr

/-- The percentage `(score / total) * 100` computed at quiz finish
(`app.py` line 280, `bot.py` line 673), over `ℚ`. -/
def pct (score total : Nat) : ℚ :=
  (score : ℚ) / (total : ℚ) * 100

/-- The level-determination rule: the `if percentage >= 90 ... else "A1"`
chain of `app.py` lines 283-292 and `bot.py` lines 674-683 (the two
copies are identical). -/
def determineLevel (score total : Nat) : String :=
  if pct score total ≥ 90 then "C1"
  else if pct score total ≥ 80 then "B2"
  else if pct score total ≥ 70 then "B1"
  else if pct score total ≥ 60 then "A2"
  else "A1"

/-- Placeholder question used only to state `List.getD` lookups. -/
def qDefault : Question :=
  ⟨0, 0, "", [], 0, ""⟩

/-- The per-user FSM quiz state set up by `bot.py start_quiz` (lines
608-617): the fetched question list, cursor `current`, `score`, `lives`
(initially 3), the wrong-answer list, and the requested level filter. -/
structure BotSession where
  questions : List Question
  current : Nat
  score : Nat
  lives : Int
  wrongAnswers : List Question
  levelFilter : String
deriving DecidableEq, Repr

/-- `bot.py start_quiz` (lines 596-620): on an empty fetched pool the
handler answers with the empty-pool alert and returns before any FSM
state is written (`none`); otherwise it creates the session with
`current = 0`, `score = 0`, `lives = 3`, empty wrong-answer list. -/
def botStartQuiz (fetched : List Question) (levelFilter : String) : Option BotSession :=
  if fetched.isEmpty then none
  else some ⟨fetched, 0, 0, 3, [], levelFilter⟩

/-- The state mutation of `bot.py handle_answer` (lines 631-641): read
the question at the cursor; on a correct answer bump the score, on a
wrong one decrement `lives` and append the question to `wrong_answers`;
the cursor advances by 1 either way.  The out-of-range branch is
unreachable while the FSM is in `taking_quiz` (the handler cannot fire
otherwise) and leaves the state unchanged. -/
def botAnswerUpdate (s : BotSession) (answerIdx : Nat) : BotSession :=
  match s.questions.get? s.current with
  | none => s
  | some q =>
    if answerIdx = q.correct then
      { s with score := s.score + 1, current := s.current + 1 }
    else
      { s with lives := s.lives - 1,
               wrongAnswers := s.wrongAnswers ++ [q],
               current := s.current + 1 }

/-- A session is live exactly while the `taking_quiz` FSM state is set:
`finish_quiz` clears the state as soon as `lives ≤ 0` or the cursor
reaches the end (lines 643-646, 719). -/
def botLive (s : BotSession) : Prop :=
  s.current < s.questions.length ∧ 0 < s.lives

instance (s : BotSession) : Decidable (botLive s) := by
  unfold botLive; infer_instance

/-- One `handle_answer` callback (lines 622-648): the handler fires only
while the session is live; a cleared (finished) session ignores further
answer callbacks. -/
def botStep (s : BotSession) (answerIdx : Nat) : BotSession :=
  if botLive s then botAnswerUpdate s answerIdx else s

/-- A sequence of `handle_answer` callbacks. -/
def botRun (s : BotSession) (answers : List Nat) : BotSession :=
  answers.foldl botStep s

/-- The finish decision of `bot.py handle_answer` (lines 643-648): after
the state update, if `lives <= 0` it calls
`finish_quiz(score, len(questions), early_end=True)`; otherwise if the
cursor reached the end it calls `finish_quiz(score, len(questions))`;
otherwise it asks the next question (`none`).  The triple is the
(score, total, early_end) arguments passed to `finish_quiz` — note both
calls pass `len(questions)` as the total. -/
def botFinishDecision (s : BotSession) (answerIdx : Nat) : Option (Nat × Nat × Bool) :=
  let s' := botAnswerUpdate s answerIdx
  if s'.lives ≤ 0 then some (s'.score, s.questions.length, true)
  else if s.questions.length ≤ s'.current then some (s'.score, s.questions.length, false)
  else none

/-- The result record built by `bot.py finish_quiz` (lines 665-685) and
passed to `save_result`: the determined level comes from
`determineLevel score total` alone; the requested `levelFilter` stored
in the session is read only for the retake button, never for the level. -/
structure BotResult where
  level : String
  score : Nat
  total : Nat
  wrongAnswers : List Question
deriving DecidableEq, Repr

/-- `bot.py finish_quiz` (lines 665-685). -/
def botFinishQuiz (s : BotSession) (score total : Nat) : BotResult :=
  ⟨determineLevel score total, score, total, s.wrongAnswers⟩

/-- The web session payload `session['current_quiz']` built by
`app.py start_quiz` (lines 233-240). -/
structure AppQuiz where
  questions : List Question
  current : Nat
  score : Nat
  wrongAnswers : List Nat
  level : Option String
deriving DecidableEq, Repr

/-- Python exceptions / error responses surfaced by the web handlers. -/
inductive PyError where
  | indexError
  | noActiveQuiz
deriving DecidableEq, Repr

/-- What `app.py start_quiz` (lines 198-252) leaves behind: the value
assigned to `session['current_quiz']` (line 233, performed
unconditionally) and the HTTP response.  There is no empty-pool check:
with an empty fetched pool the handler still performs the session
assignment and then `quiz_data[0]` (line 246) raises an uncaught
`IndexError` (an HTTP 500) instead of reporting an empty pool. -/
structure AppStartOutcome where
  sessionWrite : AppQuiz
  response : Except PyError (Question × Nat)
deriving Repr

/-- `app.py start_quiz` (lines 198-252), applied to the fetched list. -/
def appStartQuiz (fetched : List Question) (level : Option String) : AppStartOutcome :=
  let quiz : AppQuiz := ⟨fetched, 0, 0, [], level⟩
  match fetched.get? 0 with
  | some q0 => ⟨quiz, .ok (q0, fetched.length)⟩
  | none => ⟨quiz, .error .indexError⟩

/-- The state mutation of `app.py submit_answer` (lines 263-273): read
`questions[current]`, bump the score on a correct answer or append the
question id to `wrong_answers` on a wrong one, and advance the cursor.
The out-of-range branch (an `IndexError` raised before any mutation)
leaves the payload unchanged. -/
def appAnswerUpdate (q : AppQuiz) (answer : Nat) : AppQuiz :=
  match q.questions.get? q.current with
  | none => q
  | some cq =>
    if answer = cq.correct then
      { q with score := q.score + 1, current := q.current + 1 }
    else
      { q with wrongAnswers := q.wrongAnswers ++ [cq.id], current := q.current + 1 }

/-- `app.py submit_answer` entry (lines 260-273): with no
`current_quiz` payload in the session the handler returns the 400
"No active quiz" error; with a payload whose cursor is past the end the
`quiz['questions'][quiz['current']]` lookup raises `IndexError`. -/
def appSubmitAnswer (sess : Option AppQuiz) (answer : Nat) : Except PyError AppQuiz :=
  match sess with
  | none => .error .noActiveQuiz
  | some q =>
    match q.questions.get? q.current with
    | none => .error .indexError
    | some _ => .ok (appAnswerUpdate q answer)

/-- A sequence of `submit_answer` calls on the web session payload. -/
def appRun (q : AppQuiz) (answers : List Nat) : AppQuiz :=
  answers.foldl appAnswerUpdate q

/-- The result record built by the finish branch of `app.py
submit_answer` (lines 276-305): `total = len(questions)` and the
determined level comes from `determineLevel score total` alone; the
requested `level` filter stored in the payload is not read. -/
structure AppResult where
  level : String
  score : Nat
  total : Nat
  wrongAnswers : List Nat
deriving DecidableEq, Repr

/-- The finish branch of `app.py submit_answer` (lines 276-305). -/
def appFinishResult (q : AppQuiz) : AppResult :=
  ⟨determineLevel q.score q.questions.length, q.score,
    q.questions.length, q.wrongAnswers⟩

/-- The SQL `WHERE l.level = ?` filter shared by both question queries. -/
def filterPool (bank : List Question) (level : String) : List Question :=
  bank.filter (fun q => q.level == level)

/-- The comparison behind the filtered query of `bot.py get_questions`:
`ORDER BY q.id`. -/
def qIdLe (a b : Question) : Prop :=
  a.id ≤ b.id

instance : DecidableRel qIdLe := fun a b => by
  unfold qIdLe; infer_instance

instance : IsTotal Question qIdLe :=
  ⟨fun a b => Nat.le_total a.id b.id⟩

instance : IsTrans Question qIdLe :=
  ⟨fun _ _ _ hab hbc => Nat.le_trans hab hbc⟩

/-- The comparison behind the unfiltered query of `bot.py
get_questions`: `ORDER BY l.id, q.id`. -/
def qLevelIdLe (a b : Question) : Prop :=
  a.levelId < b.levelId ∨ (a.levelId = b.levelId ∧ a.id ≤ b.id)

instance : DecidableRel qLevelIdLe := fun a b => by
  unfold qLevelIdLe; infer_instance

/-- `bot.py get_questions` (lines 244-264): the filtered query ends in
`ORDER BY q.id`, the unfiltered one in `ORDER BY l.id, q.id` — both
deterministic sorts of the pool, with no randomization anywhere. -/
def botGetQuestions (bank : List Question) (level : Option String) : List Question :=
  match level with
  | some lvl => (filterPool bank lvl).insertionSort qIdLe
  | none => bank.insertionSort qLevelIdLe

/-- The question query of `app.py start_quiz` (lines 206-219): the same
filter, but ordered by `ORDER BY RANDOM()`.  The random sort key chosen
by the database is modelled by an explicit permutation parameter
`shuffle`: the query returns `shuffle` applied to the (filtered) pool,
under the hypothesis, where needed, that `shuffle` permutes its input. -/
def appFetchQuestions (bank : List Question) (level : Option String)
    (shuffle : List Question → List Question) : List Question :=
  match level with
  | some lvl => shuffle (filterPool bank lvl)
  | none => shuffle bank

/-- `bot.py use_hint` (lines 353-358): `UPDATE user_hints SET
hints_count = hints_count - 1 WHERE user_id = ? AND hints_count > 0` —
the decrement fires only on a strictly positive stored balance. -/
def use_hint (balance : Int) : Int :=
  if 0 < balance then balance - 1 else balance

/-- The guard of `bot.py use_hint_callback` (lines 733-742): a hint is
granted (and consumed) only when `get_user_hints(user_id) > 0`;
otherwise the no-hint alert is shown and nothing changes. -/
def useHintGranted (balance : Int) : Bool :=
  decide (0 < balance)

/-- The persistent per-user bonus state touched by `bot.py
get_daily_bonus` (lines 327-343): the `daily_bonus` rows
(user_id, date, claimed — unique on (user_id, date)) and the
`user_hints` rows (user_id, hints_count — unique on user_id). -/
structure BonusState where
  dailyBonus : List (Nat × String × Nat)
  userHints : List (Nat × Int)
deriving DecidableEq, Repr

/-- `SELECT claimed FROM daily_bonus WHERE user_id = ? AND date = ?`
(line 331). -/
def lookupClaimed (rows : List (Nat × String × Nat)) (u : Nat) (d : String) : Option Nat :=
  (rows.find? (fun r => r.1 == u && r.2.1 == d)).map (fun r => r.2.2)

/-- `bot.py get_user_hints` (lines 345-351): the stored count, or 0 when
the user has no `user_hints` row. -/
def get_user_hints (rows : List (Nat × Int)) (u : Nat) : Int :=
  ((rows.find? (fun r => r.1 == u)).map (fun r => r.2)).getD 0

/-- `INSERT INTO user_hints (user_id, hints_count) VALUES (?, 1)
ON CONFLICT(user_id) DO UPDATE SET hints_count = hints_count + 1`
(line 339). -/
def bumpHints (rows : List (Nat × Int)) (u : Nat) : List (Nat × Int) :=
  if (rows.find? (fun r => r.1 == u)).isSome then
    rows.map (fun r => if r.1 == u then (r.1, r.2 + 1) else r)
  else rows ++ [(u, 1)]

/-- `bot.py get_daily_bonus` (lines 327-343): if a `daily_bonus` row for
(user, today) exists, return its stored `claimed` value and change
nothing; otherwise insert the row with `claimed = 1`, add one hint via
the upsert, and return the literal 1. -/
def get_daily_bonus (st : BonusState) (u : Nat) (today : String) : Nat × BonusState :=
  match lookupClaimed st.dailyBonus u today with
  | some c => (c, st)
  | none => (1, ⟨st.dailyBonus ++ [(u, today, 1)], bumpHints st.userHints u⟩)

/-- The two messages `bot.py claim_daily_bonus` can answer with. -/
inductive BonusMessage where
  | alreadyClaimedToday
  | freshBonus
deriving DecidableEq, Repr

/-- `bot.py claim_daily_bonus` (lines 564-571): the value returned by
`get_daily_bonus` is tested for Python truthiness (`if claimed:`), so
any non-zero return selects the already-claimed message. -/
def claim_daily_bonus (st : BonusState) (u : Nat) (today : String) : BonusMessage × BonusState :=
  let r := get_daily_bonus st u today
  (if r.1 ≠ 0 then .alreadyClaimedToday else .freshBonus, r.2)

/-- A sample question (ids 1..5, correct option 0) used in concrete runs. -/
def sampleQ (i : Nat) : Question :=
  ⟨i, 1, "q", ["x", "y"], 0, "A1"⟩

/-- A concrete five-question pool used in concrete runs. -/
def pool5 : List Question :=
  [sampleQ 1, sampleQ 2, sampleQ 3, sampleQ 4, sampleQ 5]

/-- Concrete question with id 1, used for the fetch-order analysis. -/
def qA : Question :=
  ⟨1, 1, "qa", ["x", "y"], 0, "A1"⟩

/-- Concrete question with id 2, used for the fetch-order analysis. -/
def qB : Question :=
  ⟨2, 1, "qb", ["x", "y"], 0, "A1"⟩

/-- C1: the determined level is a pure function of the accuracy percentage
`score/total×100`, given by the threshold rule evaluated highest-first with
inclusive lower bounds (≥90→C1, ≥80→B2, ≥70→B1, ≥60→A2, else A1); in
particular `determineLevel 9 10 = C1`, `8 10 = B2`, `7 10 = B1`,
`6 10 = A2` (the 60% boundary goes to the higher band), `5 10 = A1`. -/
theorem c1_determine_level_rule (score total : Nat) :
    (determineLevel score total = "C1" ↔ 90 ≤ pct score total) ∧
    (determineLevel score total = "B2" ↔ 80 ≤ pct score total ∧ pct score total < 90) ∧
    (determineLevel score total = "B1" ↔ 70 ≤ pct score total ∧ pct score total < 80) ∧
    (determineLevel score total = "A2" ↔ 60 ≤ pct score total ∧ pct score total < 70) ∧
    (determineLevel score total = "A1" ↔ pct score total < 60) ∧
    determineLevel 9 10 = "C1" ∧ determineLevel 8 10 = "B2" ∧
    determineLevel 7 10 = "B1" ∧ determineLevel 6 10 = "A2" ∧
    determineLevel 5 10 = "A1" := by
  refine ⟨?_, ?_, ?_, ?_, ?_,
    by norm_num [determineLevel, pct], by norm_num [determineLevel, pct],
    by norm_num [determineLevel, pct], by norm_num [determineLevel, pct],
    by norm_num [determineLevel, pct]⟩ <;>
    (unfold determineLevel
     split_ifs with h1 h2 h3 h4 <;>
       simp_all [not_le] <;> first
         | linarith
         | (intro h; linarith))

/-! ### Helper lemmas about the two answer state machines -/

theorem botAnswerUpdate_questions (s : BotSession) (a : Nat) :
    (botAnswerUpdate s a).questions = s.questions := by
  unfold botAnswerUpdate
  split
  · rfl
  · split <;> rfl

theorem botStep_questions (s : BotSession) (a : Nat) :
    (botStep s a).questions = s.questions := by
  unfold botStep
  split
  · exact botAnswerUpdate_questions s a
  · rfl

theorem botRun_questions (answers : List Nat) (s : BotSession) :
    (botRun s answers).questions = s.questions := by
  induction answers generalizing s with
  | nil => rfl
  | cons a as ih => exact (ih (botStep s a)).trans (botStep_questions s a)

theorem appAnswerUpdate_questions (q : AppQuiz) (a : Nat) :
    (appAnswerUpdate q a).questions = q.questions := by
  unfold appAnswerUpdate
  split
  · rfl
  · split <;> rfl

theorem appRun_questions (answers : List Nat) (q : AppQuiz) :
    (appRun q answers).questions = q.questions := by
  induction answers generalizing q with
  | nil => rfl
  | cons a as ih => exact (ih (appAnswerUpdate q a)).trans (appAnswerUpdate_questions q a)

theorem botStep_inv (s : BotSession) (a : Nat)
    (h1 : s.score ≤ s.current) (h2 : s.current ≤ s.questions.length)
    (h3 : s.score + s.wrongAnswers.length = s.current) :
    (botStep s a).score ≤ (botStep s a).current ∧
    (botStep s a).current ≤ (botStep s a).questions.length ∧
    (botStep s a).score + (botStep s a).wrongAnswers.length = (botStep s a).current := by
  unfold botStep
  split
  · rename_i hl
    have hcur : s.current < s.questions.length := hl.1
    unfold botAnswerUpdate
    split
    · exact ⟨h1, h2, h3⟩
    · split <;> (refine ⟨?_, ?_, ?_⟩ <;> (try simp) <;> omega)
  · exact ⟨h1, h2, h3⟩

theorem botRun_inv (answers : List Nat) (s : BotSession)
    (h1 : s.score ≤ s.current) (h2 : s.current ≤ s.questions.length)
    (h3 : s.score + s.wrongAnswers.length = s.current) :
    (botRun s answers).score ≤ (botRun s answers).current ∧
    (botRun s answers).current ≤ (botRun s answers).questions.length ∧
    (botRun s answers).score + (botRun s answers).wrongAnswers.length =
      (botRun s answers).current := by
  induction answers generalizing s with
  | nil => exact ⟨h1, h2, h3⟩
  | cons a as ih =>
    obtain ⟨g1, g2, g3⟩ := botStep_inv s a h1 h2 h3
    exact ih (botStep s a) g1 g2 g3

theorem appAnswerUpdate_inv (q : AppQuiz) (a : Nat)
    (h1 : q.score ≤ q.current) (h2 : q.current ≤ q.questions.length)
    (h3 : q.score + q.wrongAnswers.length = q.current) :
    (appAnswerUpdate q a).score ≤ (appAnswerUpdate q a).current ∧
    (appAnswerUpdate q a).current ≤ (appAnswerUpdate q a).questions.length ∧
    (appAnswerUpdate q a).score + (appAnswerUpdate q a).wrongAnswers.length =
      (appAnswerUpdate q a).current := by
  unfold appAnswerUpdate
  split
  · exact ⟨h1, h2, h3⟩
  · rename_i cq hg
    obtain ⟨hcur, -⟩ := List.get?_eq_some.mp hg
    split <;> (refine ⟨?_, ?_, ?_⟩ <;> (try simp) <;> omega)

theorem appRun_inv (answers : List Nat) (q : AppQuiz)
    (h1 : q.score ≤ q.current) (h2 : q.current ≤ q.questions.length)
    (h3 : q.score + q.wrongAnswers.length = q.current) :
    (appRun q answers).score ≤ (appRun q answers).current ∧
    (appRun q answers).current ≤ (appRun q answers).questions.length ∧
    (appRun q answers).score + (appRun q answers).wrongAnswers.length =
      (appRun q answers).current := by
  induction answers generalizing q with
  | nil => exact ⟨h1, h2, h3⟩
  | cons a as ih =>
    obtain ⟨g1, g2, g3⟩ := appAnswerUpdate_inv q a h1 h2 h3
    exact ih (appAnswerUpdate q a) g1 g2 g3

theorem appStartQuiz_sessionWrite (fetched : List Question) (lvl : Option String) :
    (appStartQuiz fetched lvl).sessionWrite = ⟨fetched, 0, 0, [], lvl⟩ := by
  unfold appStartQuiz
  cases fetched.get? 0 <;> rfl

theorem botStartQuiz_eq (pool : List Question) (f : String) (s : BotSession)
    (hs : botStartQuiz pool f = some s) :
    s = ⟨pool, 0, 0, 3, [], f⟩ := by
  unfold botStartQuiz at hs
  split at hs
  · exact absurd hs (by simp)
  · exact (Option.some.injEq _ _ ▸ hs).symm

/-- C4: for every active session of either front-end and every sequence
of submitted answers, the invariant `score ≤ cursor ≤ length(questions)`
holds after each call, and each processed answer advances the cursor by
exactly 1 regardless of correctness. -/
theorem c4_cursor_invariants (pool : List Question) (f : String)
    (lvl : Option String) (answers : List Nat) :
    (∀ s : BotSession, botStartQuiz pool f = some s →
        (botRun s answers).score ≤ (botRun s answers).current ∧
        (botRun s answers).current ≤ (botRun s answers).questions.length) ∧
    ((appRun (appStartQuiz pool lvl).sessionWrite answers).score ≤
        (appRun (appStartQuiz pool lvl).sessionWrite answers).current ∧
      (appRun (appStartQuiz pool lvl).sessionWrite answers).current ≤
        (appRun (appStartQuiz pool lvl).sessionWrite answers).questions.length) ∧
    (∀ (s : BotSession) (a : Nat), botLive s →
        (botStep s a).current = s.current + 1) ∧
    (∀ (q : AppQuiz) (a : Nat), q.current < q.questions.length →
        (appAnswerUpdate q a).current = q.current + 1) := by
  refine ⟨?_, ?_, ?_, ?_⟩
  · intro s hs
    obtain rfl := botStartQuiz_eq pool f s hs
    obtain ⟨g1, g2, -⟩ := botRun_inv answers ⟨pool, 0, 0, 3, [], f⟩
      (by simp) (by simp) (by simp)
    exact ⟨g1, g2⟩
  · rw [appStartQuiz_sessionWrite]
    obtain ⟨g1, g2, -⟩ := appRun_inv answers ⟨pool, 0, 0, [], lvl⟩
      (by simp) (by simp) (by simp)
    exact ⟨g1, g2⟩
  · intro s a hl
    have hcur : s.current < s.questions.length := hl.1
    unfold botStep
    rw [if_pos hl]
    unfold botAnswerUpdate
    rw [List.get?_eq_get hcur]
    split
    · rename_i heq; exact absurd heq (by simp)
    · split <;> rfl
  · intro q a hcur
    unfold appAnswerUpdate
    rw [List.get?_eq_get hcur]
    split
    · rename_i heq; exact absurd heq (by simp)
    · split <;> rfl

/-- Witness for C4 at a concrete five-question pool and answer list. -/
theorem c4_cursor_invariants_witness :
    ((botRun ⟨pool5, 0, 0, 3, [], "A1"⟩ [1, 0]).score ≤
        (botRun ⟨pool5, 0, 0, 3, [], "A1"⟩ [1, 0]).current ∧
      (botRun ⟨pool5, 0, 0, 3, [], "A1"⟩ [1, 0]).current ≤
        (botRun ⟨pool5, 0, 0, 3, [], "A1"⟩ [1, 0]).questions.length) ∧
    (botStep ⟨pool5, 0, 0, 3, [], "A1"⟩ 1).current = 0 + 1 ∧
    (appAnswerUpdate ⟨pool5, 0, 0, [], none⟩ 1).current = 0 + 1 := by
  refine ⟨(c4_cursor_invariants pool5 "A1" none [1, 0]).1
      ⟨pool5, 0, 0, 3, [], "A1"⟩ (by rfl), ?_, ?_⟩
  · exact (c4_cursor_invariants pool5 "A1" none [1, 0]).2.2.1
      ⟨pool5, 0, 0, 3, [], "A1"⟩ 1 (by constructor <;> decide)
  · exact (c4_cursor_invariants pool5 "A1" none [1, 0]).2.2.2
      ⟨pool5, 0, 0, [], none⟩ 1 (by decide)

theorem botAnswerUpdate_wrong (s : BotSession) (a : Nat) (q : Question)
    (hq : s.questions.get? s.current = some q) (hw : a ≠ q.correct) :
    botAnswerUpdate s a =
      { s with current := s.current + 1, lives := s.lives - 1,
               wrongAnswers := s.wrongAnswers ++ [q] } := by
  unfold botAnswerUpdate
  split
  · rename_i heq
    rw [hq] at heq
    exact absurd heq (by simp)
  · rename_i q2 heq
    rw [hq] at heq
    obtain rfl : q = q2 := by injection heq
    rw [if_neg hw]

theorem botStep_wrong (s : BotSession) (a : Nat) (q : Question)
    (hl : botLive s) (hq : s.questions.get? s.current = some q) (hw : a ≠ q.correct) :
    botStep s a =
      { s with current := s.current + 1, lives := s.lives - 1,
               wrongAnswers := s.wrongAnswers ++ [q] } := by
  unfold botStep
  rw [if_pos hl]
  exact botAnswerUpdate_wrong s a q hq hw

/-- Counterexample to C2: in a five-question pool with three straight
wrong answers, the session does end after the third answer, but the
(score, total, early_end) triple handed to `finish_quiz` is
`(0, 5, true)` — the total is the full pool size 5, not the 3 questions
actually presented. -/
theorem c2_early_end_total_counterexample :
    (botRun ⟨pool5, 0, 0, 3, [], "A1"⟩ [1, 1]).current = 2 ∧
    botFinishDecision (botRun ⟨pool5, 0, 0, 3, [], "A1"⟩ [1, 1]) 1 =
      some (0, 5, true) ∧
    (5 : Nat) ≠ 3 := by
  refine ⟨by decide, by decide, by decide⟩

/-- C2 (amended): with lives = 3 and three consecutive wrong answers the
session finishes after exactly 3 submitted answers (cursor = 2 after two
answers, and the third answer triggers the early end), but the total in
the outcome handed to `finish_quiz` is the full question-pool length
`len(questions)`, not 3, whatever the remaining pool size. -/
theorem c2_early_end_amended (p0 p1 p2 : Question) (rest : List Question)
    (f : String) (s : BotSession) (a1 a2 a3 : Nat)
    (hs : botStartQuiz (p0 :: p1 :: p2 :: rest) f = some s)
    (h1 : a1 ≠ p0.correct) (h2 : a2 ≠ p1.correct) (h3 : a3 ≠ p2.correct) :
    (botRun s [a1, a2]).current = 2 ∧
    botFinishDecision (botRun s [a1, a2]) a3 =
      some (0, (p0 :: p1 :: p2 :: rest).length, true) := by
  obtain rfl := botStartQuiz_eq _ _ _ hs
  have hl1 : botLive ⟨p0 :: p1 :: p2 :: rest, 0, 0, 3, [], f⟩ := by
    unfold botLive
    exact ⟨by simp only [List.length_cons]; omega, (by decide : (0 : Int) < 3)⟩
  have hl2 : botLive ⟨p0 :: p1 :: p2 :: rest, 1, 0, 2, [p0], f⟩ := by
    unfold botLive
    exact ⟨by simp only [List.length_cons]; omega, (by decide : (0 : Int) < 2)⟩
  have e1 : botStep ⟨p0 :: p1 :: p2 :: rest, 0, 0, 3, [], f⟩ a1 =
      ⟨p0 :: p1 :: p2 :: rest, 1, 0, 2, [p0], f⟩ :=
    botStep_wrong _ a1 p0 hl1 rfl h1
  have e2 : botStep ⟨p0 :: p1 :: p2 :: rest, 1, 0, 2, [p0], f⟩ a2 =
      ⟨p0 :: p1 :: p2 :: rest, 2, 0, 1, [p0, p1], f⟩ :=
    botStep_wrong _ a2 p1 hl2 rfl h2
  have er : botRun ⟨p0 :: p1 :: p2 :: rest, 0, 0, 3, [], f⟩ [a1, a2] =
      ⟨p0 :: p1 :: p2 :: rest, 2, 0, 1, [p0, p1], f⟩ := by
    show botStep (botStep ⟨p0 :: p1 :: p2 :: rest, 0, 0, 3, [], f⟩ a1) a2 =
      ⟨p0 :: p1 :: p2 :: rest, 2, 0, 1, [p0, p1], f⟩
    rw [e1]
    exact e2
  have e3 : botAnswerUpdate ⟨p0 :: p1 :: p2 :: rest, 2, 0, 1, [p0, p1], f⟩ a3 =
      ⟨p0 :: p1 :: p2 :: rest, 3, 0, 0, [p0, p1, p2], f⟩ :=
    botAnswerUpdate_wrong _ a3 p2 rfl h3
  refine ⟨by rw [er], ?_⟩
  rw [er]
  simp only [botFinishDecision]
  rw [e3]
  simp

/-- Witness for the amended C2 on the concrete five-question pool. -/
theorem c2_early_end_amended_witness :
    (botRun ⟨pool5, 0, 0, 3, [], "A1"⟩ [1, 1]).current = 2 ∧
    botFinishDecision (botRun ⟨pool5, 0, 0, 3, [], "A1"⟩ [1, 1]) 1 =
      some (0, (sampleQ 1 :: sampleQ 2 :: sampleQ 3 :: [sampleQ 4, sampleQ 5]).length, true) :=
  c2_early_end_amended (sampleQ 1) (sampleQ 2) (sampleQ 3) [sampleQ 4, sampleQ 5]
    "A1" ⟨pool5, 0, 0, 3, [], "A1"⟩ 1 1 1 (by rfl)
    (by decide) (by decide) (by decide)

/-- Counterexample to C9: on the bot early end after three wrong answers
out of a five-question pool, the wrong-answer list saved in the result
has 3 entries while total − score = 5. -/
theorem c9_result_total_counterexample :
    (botFinishQuiz (botRun ⟨pool5, 0, 0, 3, [], "A1"⟩ [1, 1, 1])
        (botRun ⟨pool5, 0, 0, 3, [], "A1"⟩ [1, 1, 1]).score
        pool5.length).wrongAnswers.length = 3 ∧
    (botFinishQuiz (botRun ⟨pool5, 0, 0, 3, [], "A1"⟩ [1, 1, 1])
        (botRun ⟨pool5, 0, 0, 3, [], "A1"⟩ [1, 1, 1]).score
        pool5.length).total -
      (botFinishQuiz (botRun ⟨pool5, 0, 0, 3, [], "A1"⟩ [1, 1, 1])
        (botRun ⟨pool5, 0, 0, 3, [], "A1"⟩ [1, 1, 1]).score
        pool5.length).score = 5 ∧
    (3 : Nat) ≠ 5 := by
  refine ⟨by decide, by decide, by decide⟩

/-- C9 (amended): after every submitted answer,
`score + length(wrongAnswers) = cursor` in both front-ends, so the
recorded wrong-answer list has exactly `cursor − score` entries; this
equals `total − score` of the Result whenever the recorded total is the
cursor (always in the web front-end, and for the bot when the total
passed to `finish_quiz` is the cursor, as on normal completion). -/
theorem c9_partition_amended (pool : List Question) (f : String)
    (lvl : Option String) (answers : List Nat) :
    (∀ s : BotSession, botStartQuiz pool f = some s →
        (botRun s answers).score + (botRun s answers).wrongAnswers.length =
          (botRun s answers).current) ∧
    ((appRun (appStartQuiz pool lvl).sessionWrite answers).score +
        (appRun (appStartQuiz pool lvl).sessionWrite answers).wrongAnswers.length =
        (appRun (appStartQuiz pool lvl).sessionWrite answers).current) ∧
    (∀ q : AppQuiz, q.current = q.questions.length →
        q.score + q.wrongAnswers.length = q.current →
        (appFinishResult q).wrongAnswers.length =
          (appFinishResult q).total - (appFinishResult q).score) ∧
    (∀ s : BotSession, s.score + s.wrongAnswers.length = s.current →
        (botFinishQuiz s s.score s.current).wrongAnswers.length =
          (botFinishQuiz s s.score s.current).total -
            (botFinishQuiz s s.score s.current).score) := by
  refine ⟨?_, ?_, ?_, ?_⟩
  · intro s hs
    obtain rfl := botStartQuiz_eq pool f s hs
    exact (botRun_inv answers ⟨pool, 0, 0, 3, [], f⟩ (by simp) (by simp) (by simp)).2.2
  · rw [appStartQuiz_sessionWrite]
    exact (appRun_inv answers ⟨pool, 0, 0, [], lvl⟩ (by simp) (by simp) (by simp)).2.2
  · intro q hlen hpart
    simp only [appFinishResult]
    omega
  · intro s hpart
    simp only [botFinishQuiz]
    omega

/-- Witness for the amended C9 on the concrete five-question pool. -/
theorem c9_partition_amended_witness :
    (botRun ⟨pool5, 0, 0, 3, [], "A1"⟩ [1, 0]).score +
        (botRun ⟨pool5, 0, 0, 3, [], "A1"⟩ [1, 0]).wrongAnswers.length =
      (botRun ⟨pool5, 0, 0, 3, [], "A1"⟩ [1, 0]).current ∧
    (appFinishResult ⟨pool5, 5, 3, [2, 4], none⟩).wrongAnswers.length =
      (appFinishResult ⟨pool5, 5, 3, [2, 4], none⟩).total -
        (appFinishResult ⟨pool5, 5, 3, [2, 4], none⟩).score := by
  refine ⟨(c9_partition_amended pool5 "A1" none [1, 0]).1
      ⟨pool5, 0, 0, 3, [], "A1"⟩ (by rfl), ?_⟩
  exact (c9_partition_amended pool5 "A1" none [1, 0]).2.2.1
    ⟨pool5, 5, 3, [2, 4], none⟩ (by decide) (by decide)

/-- C3 evaluated on the code: the bot front-end behaves as claimed (an
empty pool creates no session, and an answer callback without a session
is ignored / a web submit without a payload yields the no-active-quiz
error), but the web front-end has no empty-pool guard at all: `start`
on an empty fetched pool performs the session write and then raises an
uncaught `IndexError` instead of an empty-pool error, and a subsequent
`submit_answer` on that stored payload raises `IndexError` rather than
the no-active-quiz error. -/
theorem c3_empty_pool_code_bug :
    appStartQuiz [] none =
      ⟨⟨[], 0, 0, [], none⟩, Except.error PyError.indexError⟩ ∧
    appSubmitAnswer (some ⟨[], 0, 0, [], none⟩) 0 =
      Except.error PyError.indexError ∧
    botStartQuiz [] "A1" = none ∧
    appSubmitAnswer none 0 = Except.error PyError.noActiveQuiz :=
  ⟨rfl, rfl, rfl, rfl⟩

/-- C5: `use_hint` decrements the balance by 1 only when it is strictly
positive; on a zero balance no hint is granted and the balance is
unchanged, and under any sequence of `use_hint` calls a non-negative
balance stays non-negative. -/
theorem c5_hint_balance_safe (b : Int) (n : Nat) :
    (0 < b → use_hint b = b - 1) ∧
    (use_hint 0 = 0 ∧ useHintGranted 0 = false) ∧
    (0 ≤ b → 0 ≤ Nat.iterate use_hint n b) := by
  refine ⟨?_, ⟨rfl, rfl⟩, ?_⟩
  · intro h
    unfold use_hint
    rw [if_pos h]
  · induction n generalizing b with
    | zero => intro h; exact h
    | succ k ih =>
      intro h
      have h' : 0 ≤ use_hint b := by
        unfold use_hint; split <;> omega
      exact ih (use_hint b) h'

/-- Witness for C5 at a balance of 3 and five consecutive hint uses. -/
theorem c5_hint_balance_safe_witness :
    use_hint 3 = 3 - 1 ∧ 0 ≤ Nat.iterate use_hint 5 3 :=
  ⟨(c5_hint_balance_safe 3 5).1 (by decide),
   (c5_hint_balance_safe 3 5).2.2 (by decide)⟩

/-- C7: for completed sessions with the same score and total, the
determined level recorded at finish is identical whatever the requested
level filter stored in the session or payload, in both front-ends; in
particular 19/20 (95%) is recorded as C1 even on a B1-only quiz. -/
theorem c7_level_filter_independence (s1 s2 : BotSession) (q1 q2 : AppQuiz)
    (score total : Nat) :
    (botFinishQuiz s1 score total).level = (botFinishQuiz s2 score total).level ∧
    (q1.score = q2.score → q1.questions.length = q2.questions.length →
      (appFinishResult q1).level = (appFinishResult q2).level) ∧
    determineLevel 19 20 = "C1" := by
  refine ⟨rfl, ?_, by norm_num [determineLevel, pct]⟩
  intro hs hl
  simp only [appFinishResult]
  rw [hs, hl]

/-- Witness for C7: a B1-filtered and an unfiltered session with equal
score and total produce the same recorded level. -/
theorem c7_level_filter_independence_witness :
    (botFinishQuiz ⟨[], 0, 0, 3, [], "B1"⟩ 19 20).level =
      (botFinishQuiz ⟨[], 0, 0, 3, [], "full"⟩ 19 20).level ∧
    (appFinishResult ⟨pool5, 5, 3, [], some "B1"⟩).level =
      (appFinishResult ⟨pool5, 5, 3, [], none⟩).level :=
  ⟨(c7_level_filter_independence ⟨[], 0, 0, 3, [], "B1"⟩ ⟨[], 0, 0, 3, [], "full"⟩
      ⟨pool5, 5, 3, [], some "B1"⟩ ⟨pool5, 5, 3, [], none⟩ 19 20).1,
   (c7_level_filter_independence ⟨[], 0, 0, 3, [], "B1"⟩ ⟨[], 0, 0, 3, [], "full"⟩
      ⟨pool5, 5, 3, [], some "B1"⟩ ⟨pool5, 5, 3, [], none⟩ 19 20).2.1 rfl rfl⟩

theorem lookupClaimed_insert (rows : List (Nat × String × Nat)) (u : Nat) (d : String)
    (h : lookupClaimed rows u d = none) :
    lookupClaimed (rows ++ [(u, d, 1)]) u d = some 1 := by
  unfold lookupClaimed at h ⊢
  have hf : rows.find? (fun r => r.1 == u && r.2.1 == d) = none := by
    cases hc : rows.find? (fun r => r.1 == u && r.2.1 == d) with
    | none => rfl
    | some r => rw [hc] at h; simp at h
  rw [List.find?_append, hf]
  simp

theorem get_user_hints_bump (rows : List (Nat × Int)) (u : Nat) :
    get_user_hints (bumpHints rows u) u = get_user_hints rows u + 1 := by
  unfold get_user_hints bumpHints
  cases hf : rows.find? (fun r => r.1 == u) with
  | none =>
    simp [List.find?_append, hf]
  | some r =>
    have hr := List.find?_some hf
    simp only [Option.isSome_some, if_true]
    rw [List.find?_map]
    have hpf : ((fun r : Nat × Int => r.1 == u) ∘
        (fun p : Nat × Int => if p.1 == u then (p.1, p.2 + 1) else p)) =
        (fun r : Nat × Int => r.1 == u) := by
      funext p
      by_cases hp : (p.1 == u) = true <;> simp [hp, Function.comp]
    rw [hpf, hf]
    have hru : r.1 = u := by simpa using hr
    simp [hru]

theorem get_daily_bonus_fresh (st : BonusState) (u : Nat) (d : String)
    (h : lookupClaimed st.dailyBonus u d = none) :
    get_daily_bonus st u d =
      (1, ⟨st.dailyBonus ++ [(u, d, 1)], bumpHints st.userHints u⟩) := by
  unfold get_daily_bonus
  rw [h]

theorem get_daily_bonus_claimed (st : BonusState) (u : Nat) (d : String) (c : Nat)
    (h : lookupClaimed st.dailyBonus u d = some c) :
    get_daily_bonus st u d = (c, st) := by
  unfold get_daily_bonus
  rw [h]

/-- C6: two `get_daily_bonus` calls for the same user on the same
calendar date increase the hint balance by exactly +1 in total; the
second call changes nothing and returns the stored already-claimed
value 1. -/
theorem c6_daily_bonus_idempotent (st : BonusState) (u : Nat) (d : String)
    (h : lookupClaimed st.dailyBonus u d = none) :
    get_user_hints (get_daily_bonus (get_daily_bonus st u d).2 u d).2.userHints u =
      get_user_hints st.userHints u + 1 ∧
    (get_daily_bonus (get_daily_bonus st u d).2 u d).2 = (get_daily_bonus st u d).2 ∧
    (get_daily_bonus (get_daily_bonus st u d).2 u d).1 = 1 := by
  have e1 := get_daily_bonus_fresh st u d h
  have e2 : get_daily_bonus ⟨st.dailyBonus ++ [(u, d, 1)], bumpHints st.userHints u⟩ u d =
      (1, ⟨st.dailyBonus ++ [(u, d, 1)], bumpHints st.userHints u⟩) :=
    get_daily_bonus_claimed _ u d 1 (lookupClaimed_insert _ u d h)
  refine ⟨?_, ?_, ?_⟩
  · simp only [e1, e2]
    exact get_user_hints_bump st.userHints u
  · simp only [e1, e2]
  · simp only [e1, e2]

/-- Witness for C6 starting from the empty bonus state. -/
theorem c6_daily_bonus_idempotent_witness :
    lookupClaimed (BonusState.mk [] []).dailyBonus 7 "d1" = none ∧
    (get_user_hints (get_daily_bonus (get_daily_bonus ⟨[], []⟩ 7 "d1").2 7 "d1").2.userHints 7 =
        get_user_hints (BonusState.mk [] []).userHints 7 + 1 ∧
      (get_daily_bonus (get_daily_bonus ⟨[], []⟩ 7 "d1").2 7 "d1").2 =
        (get_daily_bonus ⟨[], []⟩ 7 "d1").2 ∧
      (get_daily_bonus (get_daily_bonus ⟨[], []⟩ 7 "d1").2 7 "d1").1 = 1) :=
  ⟨rfl, c6_daily_bonus_idempotent ⟨[], []⟩ 7 "d1" rfl⟩

/-- C10: `get_daily_bonus` returns 1 both on the first (granting) call
of the day and on a repeat call, so the caller cannot distinguish the
two from the return value; consequently `claim_daily_bonus` shows the
already-claimed message even on the first successful claim of the day. -/
theorem c10_bonus_return_always_one (st : BonusState) (u : Nat) (d : String)
    (h : lookupClaimed st.dailyBonus u d = none) :
    (get_daily_bonus st u d).1 = 1 ∧
    (get_daily_bonus (get_daily_bonus st u d).2 u d).1 = 1 ∧
    (claim_daily_bonus st u d).1 = BonusMessage.alreadyClaimedToday := by
  have e1 := get_daily_bonus_fresh st u d h
  have e2 : get_daily_bonus ⟨st.dailyBonus ++ [(u, d, 1)], bumpHints st.userHints u⟩ u d =
      (1, ⟨st.dailyBonus ++ [(u, d, 1)], bumpHints st.userHints u⟩) :=
    get_daily_bonus_claimed _ u d 1 (lookupClaimed_insert _ u d h)
  refine ⟨?_, ?_, ?_⟩
  · simp only [e1]
  · simp only [e1, e2]
  · simp [claim_daily_bonus, e1]

/-- Witness for C10 starting from the empty bonus state. -/
theorem c10_bonus_return_always_one_witness :
    lookupClaimed (BonusState.mk [] []).dailyBonus 9 "d2" = none ∧
    ((get_daily_bonus ⟨[], []⟩ 9 "d2").1 = 1 ∧
      (get_daily_bonus (get_daily_bonus ⟨[], []⟩ 9 "d2").2 9 "d2").1 = 1 ∧
      (claim_daily_bonus ⟨[], []⟩ 9 "d2").1 = BonusMessage.alreadyClaimedToday) :=
  ⟨rfl, c10_bonus_return_always_one ⟨[], []⟩ 9 "d2" rfl⟩

/-- Counterexample to C8: the bot front-end fetch is a fixed
deterministic order — on the two-question A1 bank it always returns the
questions in ascending id order `[qA, qB]`, whatever the stored order of
the bank, and its output is sorted by question id. -/
theorem c8_bot_fixed_order_counterexample :
    botGetQuestions [qB, qA] (some "A1") = [qA, qB] ∧
    botGetQuestions [qA, qB] (some "A1") = [qA, qB] ∧
    List.Sorted qIdLe (botGetQuestions [qB, qA] (some "A1")) := by
  refine ⟨by decide, by decide, by decide⟩

/-- C8 (amended): both fetches return exactly the questions of the
filtered pool, fixed at session creation and never re-shuffled
mid-session (no answer step touches the stored question list); the web
fetch is ordered by the random sort key (modelled as a permutation
parameter), while the bot fetch is the fixed ascending-question-id
order. -/
theorem c8_fetch_order_amended (bank : List Question) (lvl : String)
    (shuffle : List Question → List Question)
    (hshuffle : ∀ l, List.Perm (shuffle l) l)
    (answers : List Nat) :
    List.Perm (appFetchQuestions bank (some lvl) shuffle) (filterPool bank lvl) ∧
    List.Perm (botGetQuestions bank (some lvl)) (filterPool bank lvl) ∧
    List.Sorted qIdLe (botGetQuestions bank (some lvl)) ∧
    (∀ s : BotSession, (botRun s answers).questions = s.questions) ∧
    (∀ q : AppQuiz, (appRun q answers).questions = q.questions) := by
  refine ⟨hshuffle _, ?_, ?_, ?_, ?_⟩
  · exact List.perm_insertionSort qIdLe (filterPool bank lvl)
  · exact List.sorted_insertionSort qIdLe (filterPool bank lvl)
  · exact fun s => botRun_questions answers s
  · exact fun q => appRun_questions answers q

/-- Witness for the amended C8 with the identity permutation on the
two-question bank. -/
theorem c8_fetch_order_amended_witness :
    List.Perm (appFetchQuestions [qB, qA] (some "A1") id) (filterPool [qB, qA] "A1") ∧
    List.Perm (botGetQuestions [qB, qA] (some "A1")) (filterPool [qB, qA] "A1") ∧
    List.Sorted qIdLe (botGetQuestions [qB, qA] (some "A1")) ∧
    (botRun ⟨pool5, 0, 0, 3, [], "A1"⟩ [1, 0]).questions = pool5 :=
  ⟨(c8_fetch_order_amended [qB, qA] "A1" id (fun l => List.Perm.refl l) [1, 0]).1,
   (c8_fetch_order_amended [qB, qA] "A1" id (fun l => List.Perm.refl l) [1, 0]).2.1,
   (c8_fetch_order_amended [qB, qA] "A1" id (fun l => List.Perm.refl l) [1, 0]).2.2.1,
   (c8_fetch_order_amended [qB, qA] "A1" id (fun l => List.Perm.refl l) [1, 0]).2.2.2.1
     ⟨pool5, 0, 0, 3, [], "A1"⟩⟩
